import Mathlib

/-!
Verification development for the mcp-server-indicators repository.

This file gives a shallow embedding, in Lean 4, of the session-management,
batch-orchestration, tool-dispatch and stochastic-handler logic of the
repository, translated from the JavaScript source:

  - src/src/utils/sessionManager.js   (class MCPSessionManager)
  - src/src/tools/calculateAll.js     (calculateAllHandler and helpers)
  - src/src/tools/publicTools.js      (stochasticHandler)
  - src/unnamed/part_007              (createMCPServer tool dispatch)

JavaScript Map objects are embedded as association lists with Map.set,
Map.delete and Map.get semantics; Date subtraction is embedded as Int
millisecond timestamps; JavaScript exceptions are embedded with Except.
Console logging has no observable effect and is omitted.
-/

namespace MCPIndicators

/-- Association-list lookup, embedding JavaScript Map.get. -/
def akLookup {α : Type} (k : String) : List (String × α) → Option α
  | [] => none
  | (k1, v) :: rest => if k1 = k then some v else akLookup k rest

/-- Association-list update-or-append, embedding JavaScript Map.set:
a present key is overwritten in place, a fresh key is appended. -/
def akSet {α : Type} (k : String) (v : α) : List (String × α) → List (String × α)
  | [] => [(k, v)]
  | (k1, v1) :: rest => if k1 = k then (k, v) :: rest else (k1, v1) :: akSet k v rest

/-- Association-list deletion, embedding JavaScript Map.delete. -/
def akErase {α : Type} (k : String) (l : List (String × α)) : List (String × α) :=
  l.filter (fun p => decide (p.1 ≠ k))

/-- Association-list in-place value mutation for a present key, embedding
a field assignment on the object held in the Map. -/
def akUpdate {α : Type} (k : String) (f : α → α) : List (String × α) → List (String × α)
  | [] => []
  | (k1, v1) :: rest => if k1 = k then (k1, f v1) :: rest else (k1, v1) :: akUpdate k f rest

/-- A transport object as the session manager sees it: the only behaviour
the manager invokes is close, which may succeed or throw.
(sessionManager.js lines 144 to 153) -/
structure Transport where
  closeResult : Except String Unit

/-- An MCP server object as the session manager sees it: the manager calls
close or dispose, which may succeed or throw.
(sessionManager.js lines 156 to 167) -/
structure ServerObj where
  closeResult : Except String Unit

/-- Per-session metadata, from registerSession in sessionManager.js:
connectedAt and lastActivity timestamps (Int milliseconds stand in for
JavaScript Date values). -/
structure SessionMeta where
  connectedAt : Int
  lastActivity : Int

/-- The mutable state of MCPSessionManager: the three Maps created in the
constructor (sessionManager.js lines 13 to 15). The configuration fields
inactiveTimeoutMs and allowAutoSessionRecreate are passed explicitly to
the operations that read them. -/
structure ManagerState where
  transports : List (String × Transport)
  sessionServers : List (String × ServerObj)
  sessionMetadata : List (String × SessionMeta)

/-- hasSession (sessionManager.js lines 38 to 40): membership in the
transports map. -/
def hasSession (sessionId : String) (s : ManagerState) : Bool :=
  (akLookup sessionId s.transports).isSome

/-- registerSession (sessionManager.js lines 93 to 113). A falsy session
identifier (the empty string embeds a falsy string) throws; a transport or
server argument is stored only when present; metadata is always stored with
both timestamps set to now. -/
def registerSession (sessionId : String) (transport : Option Transport)
    (server : Option ServerObj) (now : Int) (s : ManagerState) :
    Except String ManagerState :=
  if sessionId = "" then
    Except.error ("Session ID is required to register session")
  else
    Except.ok
      { transports :=
          match transport with
          | some t => akSet sessionId t s.transports
          | none => s.transports
        sessionServers :=
          match server with
          | some sv => akSet sessionId sv s.sessionServers
          | none => s.sessionServers
        sessionMetadata :=
          akSet sessionId { connectedAt := now, lastActivity := now } s.sessionMetadata }

/-- setServer (sessionManager.js lines 65 to 75): no-op on a falsy
identifier; stores the server when present, deletes the entry otherwise. -/
def setServer (sessionId : String) (server : Option ServerObj) (s : ManagerState) :
    ManagerState :=
  if sessionId = "" then s
  else
    match server with
    | some sv => { s with sessionServers := akSet sessionId sv s.sessionServers }
    | none => { s with sessionServers := akErase sessionId s.sessionServers }

/-- updateActivity (sessionManager.js lines 132 to 137): refreshes
lastActivity when metadata exists, otherwise does nothing. -/
def updateActivity (sessionId : String) (now : Int) (s : ManagerState) : ManagerState :=
  { s with
    sessionMetadata :=
      akUpdate sessionId (fun m => { m with lastActivity := now }) s.sessionMetadata }

/-- The state produced by removeSession (sessionManager.js lines 143 to
171): the three maps lose the key. The close calls on the transport and
server affect no manager state (their failures are caught and only
logged); removeSessionE below carries the exception accounting. -/
def removeSession (sessionId : String) (s : ManagerState) : ManagerState :=
  { transports := akErase sessionId s.transports
    sessionServers := akErase sessionId s.sessionServers
    sessionMetadata := akErase sessionId s.sessionMetadata }

/-- removeSession with explicit exception accounting (sessionManager.js
lines 143 to 171): the transport close call and the server close call each
run inside try-catch blocks whose handlers only log, embedded here with
tryCatch discarding the thrown value. -/
def removeSessionE (sessionId : String) (s : ManagerState) :
    Except String ManagerState := do
  (match akLookup sessionId s.transports with
   | some t => tryCatch t.closeResult (fun _e => pure ())
   | none => pure ())
  let transports1 := akErase sessionId s.transports
  (match akLookup sessionId s.sessionServers with
   | some sv => tryCatch sv.closeResult (fun _e => pure ())
   | none => pure ())
  pure
    { transports := transports1
      sessionServers := akErase sessionId s.sessionServers
      sessionMetadata := akErase sessionId s.sessionMetadata }

/-- cleanupInactiveSessions (sessionManager.js lines 270 to 287): collect
every metadata entry whose inactivity now minus lastActivity strictly
exceeds the configured timeout, then removeSession each collected
identifier. (A metadata object and its lastActivity Date are always truthy
in the source, so the truthiness guard on line 275 always passes.) -/
def cleanupInactiveSessions (now : Int) (inactiveTimeoutMs : Int) (s : ManagerState) :
    ManagerState :=
  let sessionsToRemove :=
    (s.sessionMetadata.filter (fun p => decide (now - p.2.lastActivity > inactiveTimeoutMs))).map
      (fun p => p.1)
  sessionsToRemove.foldl (fun acc sessionId => removeSession sessionId acc) s

/-- shutdown (sessionManager.js lines 292 to 303): removeSession every key
of the transports map (timer bookkeeping has no observable state here). -/
def shutdown (s : ManagerState) : ManagerState :=
  (s.transports.map (fun p => p.1)).foldl (fun acc sessionId => removeSession sessionId acc) s

/-- The outcome of validateSession: the status strings of the source become
constructors; the error outcome carries the httpCode, jsonRpcCode and
message fields. -/
inductive ValidationOutcome where
  | createNew
  | useExisting
  | errorOut (httpCode : Nat) (jsonRpcCode : Int) (message : String)
deriving DecidableEq

/-- The request body as validateSession inspects it: when present it is an
object with a method field (null and undefined bodies embed as none). -/
structure RequestBody where
  method : String

/-- Truthiness of an optional string argument: undefined and the empty
string are falsy. -/
def jsTruthyStr : Option String → Bool
  | none => false
  | some s => !(s = "")

/-- The isInitialize test of validateSession (sessionManager.js lines 181
to 184): HTTP method POST and a present object body whose method field is
the initialization method name. -/
def isInitializeReq (method : String) (body : Option RequestBody) : Bool :=
  (method = "POST") &&
    (match body with
     | some b => b.method = "initialize"
     | none => false)

/-- validateSession (sessionManager.js lines 180 to 226), translated
branch by branch. It returns an outcome and touches no manager state; the
flag allowAutoSessionRecreate is the configuration field read on line
211. -/
def validateSession (allowAutoSessionRecreate : Bool) (s : ManagerState)
    (sessionId : Option String) (method : String) (body : Option RequestBody) :
    ValidationOutcome :=
  if isInitializeReq method body then
    if jsTruthyStr sessionId && hasSession (sessionId.getD "") s then
      ValidationOutcome.errorOut 400 (-32602) ("Initialize called with existing session ID")
    else
      ValidationOutcome.createNew
  else if !(jsTruthyStr sessionId) then
    ValidationOutcome.errorOut 400 (-32602) ("Session ID required (call initialize first)")
  else if !(hasSession (sessionId.getD "") s) then
    if allowAutoSessionRecreate then
      ValidationOutcome.createNew
    else
      ValidationOutcome.errorOut 404 (-32004) ("Session not found")
  else
    ValidationOutcome.useExisting

/-- Liveness of the supplied identifier: an identifier is present and maps
to a registered session. -/
def sessionLive (s : ManagerState) (sessionId : Option String) : Bool :=
  jsTruthyStr sessionId && hasSession (sessionId.getD "") s

/-- Modelled from the words of the spec (section 4.3 table and section 6):
the outcome of validate as a function of exactly the four booleans
identifier presence, identifier liveness, isInitialize and the
auto-recreate flag. Declared for comparison against validateSession, which
is translated from the source. -/
def validateOutcomeSpec (isInit present live autoRecreate : Bool) : ValidationOutcome :=
  if isInit then
    if live then
      ValidationOutcome.errorOut 400 (-32602) ("Initialize called with existing session ID")
    else
      ValidationOutcome.createNew
  else if !present then
    ValidationOutcome.errorOut 400 (-32602) ("Session ID required (call initialize first)")
  else if live then
    ValidationOutcome.useExisting
  else if autoRecreate then
    ValidationOutcome.createNew
  else
    ValidationOutcome.errorOut 404 (-32004) ("Session not found")

/-- The operations a client of MCPSessionManager can perform on its state,
for the lifecycle claims: register, setServer, updateActivity (touch),
removeSession, the eviction sweep, and shutdown. -/
inductive RegistryOp where
  | register (sessionId : String) (transport : Option Transport)
      (server : Option ServerObj) (now : Int)
  | attachServer (sessionId : String) (server : Option ServerObj)
  | touch (sessionId : String) (now : Int)
  | removeOp (sessionId : String)
  | sweep (now : Int)
  | shutdownAll

/-- One step of the session-manager state machine. A register call whose
identifier is falsy throws before mutating anything, so the state is
unchanged on that path. The inactivity timeout is the configuration field
of the manager. -/
def step (inactiveTimeoutMs : Int) (op : RegistryOp) (s : ManagerState) : ManagerState :=
  match op with
  | RegistryOp.register sessionId transport server now =>
      match registerSession sessionId transport server now s with
      | Except.ok s1 => s1
      | Except.error _ => s
  | RegistryOp.attachServer sessionId server => setServer sessionId server s
  | RegistryOp.touch sessionId now => updateActivity sessionId now s
  | RegistryOp.removeOp sessionId => removeSession sessionId s
  | RegistryOp.sweep now => cleanupInactiveSessions now inactiveTimeoutMs s
  | RegistryOp.shutdownAll => shutdown s

/-- The operations that the lifecycle claim exempts from keeping a live
session alive: removal of that identifier, a sweep that evicts it (its
recorded inactivity strictly exceeds the timeout), and shutdown. Every
other operation must preserve liveness of sessionId. -/
def preservesLiveness (inactiveTimeoutMs : Int) (s : ManagerState) (sessionId : String) :
    RegistryOp → Prop
  | RegistryOp.removeOp sessionId1 => sessionId1 ≠ sessionId
  | RegistryOp.shutdownAll => False
  | RegistryOp.sweep now =>
      ∀ p ∈ s.sessionMetadata, p.1 = sessionId →
        now - p.2.lastActivity ≤ inactiveTimeoutMs
  | _ => True

/-! Embedding of src/src/tools/calculateAll.js. Prices are embedded as
rationals; the tulind engine is external and appears only through the
settle argument giving each submitted calculation its settled payload.
Each submitted promise carries its own then and catch continuations, so
under Promise.allSettled every element is fulfilled, holding either the
data object or the name-and-error object. -/

/-- Default timeout of withTimeout (calculateAll.js line 243). -/
def withTimeoutDefaultMs : Nat := 5000

/-- Default timeout of runIndicatorWithTimeout (calculateAll.js line 260);
every call site in calculateAllHandler omits the timeout argument, so each
submitted calculation runs under this default. -/
def runIndicatorDefaultTimeoutMs : Nat := 3000

/-- The global batch timeout passed to withTimeout around
Promise.allSettled (calculateAll.js line 502). -/
def globalBatchTimeoutMs : Nat := 15000

/-- The message of the rejection produced when the global batch timeout
elapses first (calculateAll.js line 247 with the 15000 argument). -/
def globalTimeoutMessage : String :=
  "Operation timed out after " ++ toString globalBatchTimeoutMs ++ "ms"

/-- One indicator configuration object as calculateAllHandler reads it:
the enabled flag, the optional numeric parameters, and the optional
explicit name. Absent fields embed as none. -/
structure IndConfig where
  enabled : Bool := false
  period : Option Nat := none
  fastPeriod : Option Nat := none
  slowPeriod : Option Nat := none
  signalPeriod : Option Nat := none
  kPeriod : Option Nat := none
  kSlowing : Option Nat := none
  dPeriod : Option Nat := none
  stddev : Option Nat := none
  name : Option String := none
deriving DecidableEq

/-- A per-kind configuration field of the indicators argument: absent, a
single object, or an array of objects. -/
inductive ConfigField where
  | absent
  | single (c : IndConfig)
  | many (cs : List IndConfig)

/-- normalizeConfig (calculateAll.js lines 304 to 307). -/
def normalizeConfig : ConfigField → List IndConfig
  | ConfigField.absent => []
  | ConfigField.single c => [c]
  | ConfigField.many cs => cs

/-- The indicators argument of calculate_all_indicators. -/
structure IndicatorsSpec where
  rsi : ConfigField := ConfigField.absent
  ema : ConfigField := ConfigField.absent
  sma : ConfigField := ConfigField.absent
  macd : ConfigField := ConfigField.absent
  bollinger : ConfigField := ConfigField.absent
  stochastic : ConfigField := ConfigField.absent
  atr : ConfigField := ConfigField.absent

/-- The ohlcv argument: each series is absent (undefined) or a numeric
array. The volume series is never read by the handler. -/
structure OHLCV where
  high : Option (List ℚ) := none
  low : Option (List ℚ) := none
  close : Option (List ℚ) := none

/-- JavaScript defaulting with the or-operator on a numeric field, as in
config.period or 14: undefined and zero are falsy and select the
default. -/
def jsOrNat : Option Nat → Nat → Nat
  | none, d => d
  | some n, d => if n = 0 then d else n

/-- JavaScript defaulting with the or-operator on a string field, as in
config.name or the derived default: undefined and the empty string are
falsy and select the default. -/
def jsOrStr : Option String → String → String
  | none, d => d
  | some s, d => if s = "" then d else s

/-- One calculation pushed onto the calculations array: the result key it
will settle under and the per-call timeout it runs with. -/
structure Submission where
  name : String
  timeoutMs : Nat
deriving DecidableEq

/-- The submissions contributed by one indicator kind: the enabled
configurations that pass the minimum-data check, in configuration order,
each keyed by the explicit name or the derived default and run under the
default per-call timeout (every call site omits the timeout argument). -/
def mkSubsKind (dataOk : IndConfig → Bool) (mkName : IndConfig → String)
    (cs : List IndConfig) : List Submission :=
  (cs.filter (fun c => c.enabled && dataOk c)).map
    (fun c => { name := mkName c, timeoutMs := runIndicatorDefaultTimeoutMs })

/-- Default name of an RSI submission (calculateAll.js line 317). -/
def rsiName (c : IndConfig) : String :=
  jsOrStr c.name ("rsi_" ++ toString (jsOrNat c.period 14))

/-- Minimum-data check of an RSI configuration (calculateAll.js line 319). -/
def rsiDataOk (close : List ℚ) (c : IndConfig) : Bool :=
  decide (jsOrNat c.period 14 ≤ close.length)

/-- Default name of an EMA submission (calculateAll.js line 340). -/
def emaName (c : IndConfig) : String :=
  jsOrStr c.name ("ema_" ++ toString (jsOrNat c.period 20))

/-- Minimum-data check of an EMA configuration (calculateAll.js line 342). -/
def emaDataOk (close : List ℚ) (c : IndConfig) : Bool :=
  decide (jsOrNat c.period 20 ≤ close.length)

/-- Default name of an SMA submission (calculateAll.js line 363). -/
def smaName (c : IndConfig) : String :=
  jsOrStr c.name ("sma_" ++ toString (jsOrNat c.period 20))

/-- Minimum-data check of an SMA configuration (calculateAll.js line 365). -/
def smaDataOk (close : List ℚ) (c : IndConfig) : Bool :=
  decide (jsOrNat c.period 20 ≤ close.length)

/-- Default name of a MACD submission (calculateAll.js line 388). -/
def macdName (c : IndConfig) : String :=
  jsOrStr c.name
    ("macd_" ++ toString (jsOrNat c.fastPeriod 12) ++ "_" ++
      toString (jsOrNat c.slowPeriod 26) ++ "_" ++ toString (jsOrNat c.signalPeriod 9))

/-- Minimum-data check of a MACD configuration (calculateAll.js line 390):
the close length must reach the slow period. -/
def macdDataOk (close : List ℚ) (c : IndConfig) : Bool :=
  decide (jsOrNat c.slowPeriod 26 ≤ close.length)

/-- Default name of a Bollinger submission (calculateAll.js line 420). -/
def bbName (c : IndConfig) : String :=
  jsOrStr c.name
    ("bb_" ++ toString (jsOrNat c.period 20) ++ "_" ++ toString (jsOrNat c.stddev 2))

/-- Minimum-data check of a Bollinger configuration (calculateAll.js line
422). -/
def bbDataOk (close : List ℚ) (c : IndConfig) : Bool :=
  decide (jsOrNat c.period 20 ≤ close.length)

/-- Default name of a stochastic submission (calculateAll.js line 452). -/
def stochName (c : IndConfig) : String :=
  jsOrStr c.name
    ("stoch_" ++ toString (jsOrNat c.kPeriod 14) ++ "_" ++
      toString (jsOrNat c.kSlowing 3) ++ "_" ++ toString (jsOrNat c.dPeriod 3))

/-- Minimum-data check of a stochastic configuration (calculateAll.js line
454): the high length must reach the K period. -/
def stochDataOk (high : List ℚ) (c : IndConfig) : Bool :=
  decide (jsOrNat c.kPeriod 14 ≤ high.length)

/-- Default name of an ATR submission (calculateAll.js line 481). -/
def atrName (c : IndConfig) : String :=
  jsOrStr c.name ("atr_" ++ toString (jsOrNat c.period 14))

/-- Minimum-data check of an ATR configuration (calculateAll.js line 483):
the high length must reach the period. -/
def atrDataOk (high : List ℚ) (c : IndConfig) : Bool :=
  decide (jsOrNat c.period 14 ≤ high.length)

/-- The calculations array in submission order (calculateAll.js lines 310
to 497): the seven kinds in source order, each contributing its enabled
configurations that pass the minimum-data check. -/
def submissions (high _low close : List ℚ) (ind : IndicatorsSpec) : List Submission :=
  mkSubsKind (rsiDataOk close) rsiName (normalizeConfig ind.rsi) ++
  mkSubsKind (emaDataOk close) emaName (normalizeConfig ind.ema) ++
  mkSubsKind (smaDataOk close) smaName (normalizeConfig ind.sma) ++
  mkSubsKind (macdDataOk close) macdName (normalizeConfig ind.macd) ++
  mkSubsKind (bbDataOk close) bbName (normalizeConfig ind.bollinger) ++
  mkSubsKind (stochDataOk high) stochName (normalizeConfig ind.stochastic) ++
  mkSubsKind (atrDataOk high) atrName (normalizeConfig ind.atr)

/-- The number of enabled configurations in a batch (the N of the claim). -/
def enabledCount (ind : IndicatorsSpec) : Nat :=
  (normalizeConfig ind.rsi).countP (fun c => c.enabled) +
  (normalizeConfig ind.ema).countP (fun c => c.enabled) +
  (normalizeConfig ind.sma).countP (fun c => c.enabled) +
  (normalizeConfig ind.macd).countP (fun c => c.enabled) +
  (normalizeConfig ind.bollinger).countP (fun c => c.enabled) +
  (normalizeConfig ind.stochastic).countP (fun c => c.enabled) +
  (normalizeConfig ind.atr).countP (fun c => c.enabled)

/-- The number of enabled configurations skipped by the minimum-data check
(the K of the claim). -/
def skippedCount (high close : List ℚ) (ind : IndicatorsSpec) : Nat :=
  (normalizeConfig ind.rsi).countP (fun c => c.enabled && !(rsiDataOk close c)) +
  (normalizeConfig ind.ema).countP (fun c => c.enabled && !(emaDataOk close c)) +
  (normalizeConfig ind.sma).countP (fun c => c.enabled && !(smaDataOk close c)) +
  (normalizeConfig ind.macd).countP (fun c => c.enabled && !(macdDataOk close c)) +
  (normalizeConfig ind.bollinger).countP (fun c => c.enabled && !(bbDataOk close c)) +
  (normalizeConfig ind.stochastic).countP (fun c => c.enabled && !(stochDataOk high c)) +
  (normalizeConfig ind.atr).countP (fun c => c.enabled && !(atrDataOk high c))

/-- The settled payload of one submitted calculation: the then branch
yields the data object of the indicator, the catch branch yields the
object holding the error message (calculateAll.js, the then and catch of
each push). The engine data type is a parameter since the numeric engine
is external. -/
inductive ItemPayload (δ : Type) where
  | data (d : δ)
  | errMsg (m : String)
deriving DecidableEq

/-- The response envelope of calculateAllHandler: the success body with
dataPoints and the indicators mapping (calculateAll.js lines 295 to 301
and 519 to 526), or the catch-block error body with isError set and no
indicators field (lines 528 to 542). -/
inductive CalcEnvelope (δ : Type) where
  | okBody (dataPoints : Nat) (indicators : List (String × ItemPayload δ))
  | errorBody (message : String)
deriving DecidableEq

/-- Whether the envelope carries the isError flag (only the catch-block
body sets it). -/
def isErrorSet {δ : Type} : CalcEnvelope δ → Bool
  | CalcEnvelope.okBody _ _ => false
  | CalcEnvelope.errorBody _ => true

/-- The per-item entries of the envelope; the error body carries none. -/
def envelopeEntries {δ : Type} : CalcEnvelope δ → List (String × ItemPayload δ)
  | CalcEnvelope.okBody _ entries => entries
  | CalcEnvelope.errorBody _ => []

/-- Key assignment on the results.indicators object (calculateAll.js
lines 506 to 515): assignment to a present key overwrites it in place,
assignment to a fresh key appends it. -/
def mergeEntries {δ : Type} (settled : List (String × ItemPayload δ)) :
    List (String × ItemPayload δ) :=
  settled.foldl (fun acc p => akSet p.1 p.2 acc) []

/-- The input validation of calculateAllHandler (calculateAll.js lines 283
to 293): a missing series, a length mismatch, or fewer than two points
throws the corresponding message. An empty array is truthy in JavaScript,
so only an absent series fails the presence test. -/
def validateOHLCV (o : OHLCV) : Except String (List ℚ × List ℚ × List ℚ) :=
  match o.high, o.low, o.close with
  | some h, some l, some c =>
      if h.length ≠ l.length ∨ h.length ≠ c.length then
        Except.error ("OHLCV arrays must have the same length")
      else if h.length < 2 then
        Except.error ("Need at least 2 data points")
      else
        Except.ok (h, l, c)
  | _, _, _ => Except.error ("Missing required OHLCV data (high, low, close)")

/-- calculateAllHandler (calculateAll.js lines 275 to 543). The settle
argument gives the payload each submitted calculation fulfils with, in
submission order (Promise.allSettled preserves submission order, and every
element is fulfilled because each submission carries its own catch). The
globalTimedOut flag says whether the 15 second timer won the race against
Promise.allSettled; when it does, the awaited race rejects and control
reaches the catch block, which returns the error body - the settled
partial results are not consulted on that path. Any validation throw
reaches the same catch block. -/
def calculateAllHandler {δ : Type} (o : OHLCV) (ind : IndicatorsSpec)
    (settle : Nat → ItemPayload δ) (globalTimedOut : Bool) : CalcEnvelope δ :=
  match validateOHLCV o with
  | Except.error msg => CalcEnvelope.errorBody msg
  | Except.ok (h, l, c) =>
      if globalTimedOut then
        CalcEnvelope.errorBody globalTimeoutMessage
      else
        let subs := submissions h l c ind
        CalcEnvelope.okBody c.length
          (mergeEntries (subs.enum.map (fun p => (p.2.name, settle p.1))))

/-! Embedding of the tool dispatch of createMCPServer (the
CallToolRequestSchema handler in src/unnamed/part_007, lines 112 to
150). -/

/-- One element of the content array of a tool result. -/
structure ToolContent where
  ctype : String
  text : String
deriving DecidableEq

/-- A structured tool result: the content array and the optional isError
flag (absent embeds as false). -/
structure ToolResult where
  content : List ToolContent
  isError : Bool := false
deriving DecidableEq

/-- The structured result returned for a tool name with no registered
handler (part_007 lines 120 to 131). -/
def unknownToolResult (toolName : String) : ToolResult :=
  { content := [{ ctype := "text", text := "Unknown tool: " ++ toolName }]
    isError := true }

/-- The structured result the catch block builds from a handler throw
(part_007 lines 137 to 148). -/
def handlerFaultResult (msg : String) : ToolResult :=
  { content := [{ ctype := "text", text := "Error: " ++ msg }]
    isError := true }

/-- The CallToolRequestSchema handler body (part_007 lines 112 to 150):
look the tool name up in the handlers map; absent names yield the
unknown-tool result; a handler throw is caught and converted; a handler
result is propagated verbatim. The dispatch itself always returns a
structured result and never lets an exception escape. -/
def dispatchToolCall {α : Type} (handlers : List (String × (α → Except String ToolResult)))
    (toolName : String) (args : α) : ToolResult :=
  match akLookup toolName handlers with
  | none => unknownToolResult toolName
  | some h =>
      match h args with
      | Except.ok r => r
      | Except.error e => handlerFaultResult e

/-! Embedding of stochasticHandler (src/src/tools/publicTools.js lines 124
to 257 of the packed file; the handler of the calculate_stochastic tool).
The tulind stoch engine is external and enters as the engine argument,
which may succeed with an engine-specific result or fail with a message.
Prices are rationals, so the runtime number-validity check of the source
(line 157) holds by type. -/

/-- The arguments of calculate_stochastic: the three price arrays and the
three optional periods, whose destructuring defaults 14, 3 and 3 apply
exactly when the field is undefined. -/
structure StochArgs where
  high : List ℚ
  low : List ℚ
  close : List ℚ
  kPeriod : Option Nat := none
  kSmoothPeriod : Option Nat := none
  dPeriod : Option Nat := none

/-- The outcome of stochasticHandler: the success response with its
dataPoints count, its optional warning field, and the engine-derived body,
or a thrown error message. -/
inductive StochOutcome (δ : Type) where
  | okBody (dataPoints : Nat) (warning : Option String) (body : δ)
  | thrown (msg : String)
deriving DecidableEq

/-- The warning message attached when the three arrays have unequal
lengths (publicTools.js stochasticHandler, auto-adjust branch). -/
def stochWarningMessage (highLen lowLen closeLen minLen : Nat) : String :=
  "Array length mismatch detected (high=" ++ toString highLen ++
    ", low=" ++ toString lowLen ++ ", close=" ++ toString closeLen ++
    "). Automatically adjusted to shortest length: " ++ toString minLen

/-- stochasticHandler, translated step by step: mismatch detection and
truncation to the shortest length with a warning, the empty-array throw,
the minimum-data throw at kPeriod plus kSmoothPeriod plus dPeriod, then
the engine call, whose failure is rethrown with a prefix. -/
def stochasticHandler {δ : Type}
    (engine : List ℚ → List ℚ → List ℚ → Nat → Nat → Nat → Except String δ)
    (a : StochArgs) : StochOutcome δ :=
  let kPeriod := a.kPeriod.getD 14
  let kSmoothPeriod := a.kSmoothPeriod.getD 3
  let dPeriod := a.dPeriod.getD 3
  let mismatch := !(a.high.length = a.low.length && a.low.length = a.close.length)
  let minLength := min (min a.high.length a.low.length) a.close.length
  let adjustedHigh := if mismatch then a.high.take minLength else a.high
  let adjustedLow := if mismatch then a.low.take minLength else a.low
  let adjustedClose := if mismatch then a.close.take minLength else a.close
  let warning : Option String :=
    if mismatch then
      some (stochWarningMessage a.high.length a.low.length a.close.length minLength)
    else
      none
  if adjustedHigh.length = 0 then
    StochOutcome.thrown ("Price arrays must not be empty")
  else if adjustedHigh.length < kPeriod + kSmoothPeriod + dPeriod then
    StochOutcome.thrown
      ("Insufficient data: need at least " ++ toString (kPeriod + kSmoothPeriod + dPeriod) ++
        " data points for Stochastic calculation")
  else
    match engine adjustedHigh adjustedLow adjustedClose kPeriod kSmoothPeriod dPeriod with
    | Except.ok body => StochOutcome.okBody adjustedHigh.length warning body
    | Except.error e => StochOutcome.thrown ("Stochastic calculation failed: " ++ e)

/-- A concrete batch dataset of fourteen points per series, for concrete
scenarios. -/
def ohlcv14 : OHLCV :=
  { high := some (List.replicate 14 1), low := some (List.replicate 14 1),
    close := some (List.replicate 14 1) }

/-- A batch enabling one RSI configuration with default parameters. -/
def rsiOnly : IndicatorsSpec := { rsi := ConfigField.single { enabled := true } }

/-- A batch enabling the same default RSI configuration twice. -/
def rsiTwice : IndicatorsSpec :=
  { rsi := ConfigField.many [{ enabled := true }, { enabled := true }] }

/-- A settle oracle on which every submitted calculation succeeds. -/
def settleOk : Nat → ItemPayload Unit := fun _ => ItemPayload.data ()

/-- A stochastic engine that always succeeds, for concrete scenarios. -/
def engineUnitOk : List ℚ → List ℚ → List ℚ → Nat → Nat → Nat → Except String Unit :=
  fun _ _ _ _ _ _ => Except.ok ()

/-- Stochastic arguments with mismatched lengths 21, 20 and 22, whose
truncated length 20 meets the default minimum 14 plus 3 plus 3. -/
def stochArgsMis : StochArgs :=
  { high := List.replicate 21 1, low := List.replicate 20 1, close := List.replicate 22 1 }

/-- Stochastic arguments with mismatched lengths 5, 4 and 6, whose
truncated length 4 is positive but below the default minimum 20. -/
def stochArgsShort : StochArgs :=
  { high := List.replicate 5 1, low := List.replicate 4 1, close := List.replicate 6 1 }

/-- A concrete transport whose close succeeds, for concrete scenarios. -/
def tOk : Transport := { closeResult := Except.ok () }

/-- The empty registry state, for concrete scenarios. -/
def emptyState : ManagerState :=
  { transports := [], sessionServers := [], sessionMetadata := [] }

/-! Helper lemmas about the association-list operations. -/

theorem akLookup_akErase_self {α : Type} (k : String) (l : List (String × α)) :
    akLookup k (akErase k l) = none := by
  induction l with
  | nil => rfl
  | cons p rest ih =>
    by_cases h : p.1 = k
    · simpa [akErase, List.filter_cons, h] using ih
    · simpa [akErase, List.filter_cons, h, akLookup] using ih

theorem akLookup_akErase_ne {α : Type} {k k1 : String} (h : k ≠ k1) (l : List (String × α)) :
    akLookup k (akErase k1 l) = akLookup k l := by
  induction l with
  | nil => rfl
  | cons p rest ih =>
    by_cases h1 : p.1 = k1
    · have h2 : ¬ p.1 = k := fun hc => h (hc ▸ h1)
      simpa [akErase, List.filter_cons, h1, akLookup, h2, Ne.symm h] using ih
    · by_cases h2 : p.1 = k
      · simp [akErase, List.filter_cons, h1, akLookup, h2, h]
      · simp [akErase, List.filter_cons, h1, akLookup, h2]
        simpa [akErase] using ih

theorem akErase_idem {α : Type} (k : String) (l : List (String × α)) :
    akErase k (akErase k l) = akErase k l := by
  induction l with
  | nil => rfl
  | cons p rest ih =>
    by_cases h : p.1 = k
    · simp [akErase, List.filter_cons, h, ih]
    · simp [akErase, List.filter_cons, h, ih]

theorem akLookup_akSet_self {α : Type} (k : String) (v : α) (l : List (String × α)) :
    akLookup k (akSet k v l) = some v := by
  induction l with
  | nil => simp [akSet, akLookup]
  | cons p rest ih =>
    by_cases h : p.1 = k
    · simp [akSet, h, akLookup]
    · simpa [akSet, h, akLookup] using ih

theorem akLookup_akSet_ne {α : Type} {k k1 : String} (h : k ≠ k1) (v : α)
    (l : List (String × α)) : akLookup k (akSet k1 v l) = akLookup k l := by
  induction l with
  | nil => simp [akSet, akLookup, Ne.symm h]
  | cons p rest ih =>
    by_cases h1 : p.1 = k1
    · have h2 : ¬ p.1 = k := fun hc => h (hc ▸ h1)
      simp [akSet, h1, akLookup, h2, Ne.symm h]
    · by_cases h2 : p.1 = k
      · simp [akSet, h1, akLookup, h2, h]
      · simpa [akSet, h1, akLookup, h2] using ih

theorem akLookup_filter_none {α : Type} {k : String} {l : List (String × α)}
    (p : String × α → Bool) (h : akLookup k l = none) :
    akLookup k (l.filter p) = none := by
  induction l with
  | nil => rfl
  | cons q rest ih =>
    have h1 : ¬ q.1 = k := by
      intro hc
      simp [akLookup, hc] at h
    have h2 : akLookup k rest = none := by
      simpa [akLookup, h1] using h
    by_cases hp : p q
    · simpa [List.filter_cons, hp, akLookup, h1] using ih h2
    · simpa [List.filter_cons, hp] using ih h2

theorem akLookup_mem {α : Type} {k : String} {v : α} {l : List (String × α)}
    (h : akLookup k l = some v) : (k, v) ∈ l := by
  induction l with
  | nil => simp [akLookup] at h
  | cons p rest ih =>
    obtain ⟨k1, v1⟩ := p
    by_cases h1 : k1 = k
    · simp [akLookup, h1] at h
      subst h1
      subst h
      exact List.mem_cons_self _ _
    · simp [akLookup, h1] at h
      exact List.mem_cons_of_mem _ (ih h)

theorem mem_akLookup_of_nodup {α : Type} {l : List (String × α)} {p : String × α}
    (hnd : (l.map Prod.fst).Nodup) (hmem : p ∈ l) : akLookup p.1 l = some p.2 := by
  induction l with
  | nil => simp at hmem
  | cons q rest ih =>
    rcases List.mem_cons.mp hmem with h | h
    · subst h
      simp [akLookup]
    · have hq : q.1 ≠ p.1 := by
        intro hc
        have : q.1 ∈ rest.map Prod.fst := hc ▸ List.mem_map_of_mem Prod.fst h
        exact (List.nodup_cons.mp hnd).1 this
      simp [akLookup, hq]
      exact ih (List.nodup_cons.mp hnd).2 h

/-! Theorems for the claims. -/

/-- C1: validateSession is a pure function of identifier presence,
identifier liveness, whether the request is an initialize, and the
auto-recreate flag, and on every combination it returns exactly the
outcome of the table of the spec (validateOutcomeSpec, declared from the
words of the spec), with the fixed code pairs -32602 with 400 and -32004
with 404 on the error branches. validateSession returns only an outcome
and by construction touches no manager state, so it never mutates the
registry. -/
theorem validateSession_matches_spec_table (allowAutoSessionRecreate : Bool)
    (s : ManagerState) (sessionId : Option String) (method : String)
    (body : Option RequestBody) :
    validateSession allowAutoSessionRecreate s sessionId method body =
      validateOutcomeSpec (isInitializeReq method body) (jsTruthyStr sessionId)
        (sessionLive s sessionId) allowAutoSessionRecreate := by
  unfold validateSession validateOutcomeSpec sessionLive
  cases h1 : isInitializeReq method body <;>
    cases h2 : jsTruthyStr sessionId <;>
      cases h3 : hasSession (sessionId.getD "") s <;>
        cases allowAutoSessionRecreate <;>
          simp [h1, h2, h3]

/-- Auxiliary: a caught close call never produces an exception. -/
theorem tryCatch_swallow (r : Except String Unit) :
    tryCatch r (fun _e : String => Except.ok ()) = Except.ok () := by
  cases r with
  | ok a => cases a; rfl
  | error e => rfl

/-- C7: removeSession is idempotent and total. For every state and every
identifier, the embedded removeSession with explicit exception accounting
returns Except.ok - it never throws, whatever the close behaviour of the
stored transport and server (close failures are swallowed by the catch
blocks) and also when the identifier is absent - and applying the removal
twice yields the same registry state as applying it once. -/
theorem removeSession_idempotent_total (s : ManagerState) (sessionId : String) :
    removeSessionE sessionId s = Except.ok (removeSession sessionId s) ∧
      removeSession sessionId (removeSession sessionId s) = removeSession sessionId s := by
  constructor
  · cases ht : akLookup sessionId s.transports <;>
      cases hs : akLookup sessionId s.sessionServers <;>
        simp [removeSessionE, removeSession, ht, hs, tryCatch_swallow, bind, Except.bind,
          pure, Except.pure]
  · simp [removeSession, akErase_idem]

theorem hasSession_removeSession_ne {sessionId sessionId1 : String}
    (h : sessionId ≠ sessionId1) (s : ManagerState) :
    hasSession sessionId (removeSession sessionId1 s) = hasSession sessionId s := by
  simp [hasSession, removeSession, akLookup_akErase_ne h]

theorem hasSession_removeSession_self (sessionId : String) (s : ManagerState) :
    hasSession sessionId (removeSession sessionId s) = false := by
  simp [hasSession, removeSession, akLookup_akErase_self]

theorem hasSession_removeSession_false {sessionId : String} {s : ManagerState}
    (h : hasSession sessionId s = false) (sessionId1 : String) :
    hasSession sessionId (removeSession sessionId1 s) = false := by
  by_cases he : sessionId = sessionId1
  · subst he
    exact hasSession_removeSession_self sessionId s
  · rw [hasSession_removeSession_ne he]
    exact h

theorem hasSession_foldl_remove_false {sessionId : String} (ids : List String)
    {s : ManagerState} (h : hasSession sessionId s = false) :
    hasSession sessionId (ids.foldl (fun acc i => removeSession i acc) s) = false := by
  induction ids generalizing s with
  | nil => exact h
  | cons i t ih => exact ih (hasSession_removeSession_false h i)

theorem hasSession_foldl_remove_not_mem {sessionId : String} {ids : List String}
    (h : sessionId ∉ ids) (s : ManagerState) :
    hasSession sessionId (ids.foldl (fun acc i => removeSession i acc) s) =
      hasSession sessionId s := by
  induction ids generalizing s with
  | nil => rfl
  | cons i t ih =>
    have hne : sessionId ≠ i := fun hc => h (hc ▸ List.mem_cons_self i t)
    have hnt : sessionId ∉ t := fun hc => h (List.mem_cons_of_mem i hc)
    calc hasSession sessionId ((i :: t).foldl (fun acc i => removeSession i acc) s)
        = hasSession sessionId (removeSession i s) := ih hnt (s := removeSession i s)
      _ = hasSession sessionId s := hasSession_removeSession_ne hne s

theorem hasSession_foldl_remove_mem {sessionId : String} {ids : List String}
    (h : sessionId ∈ ids) (s : ManagerState) :
    hasSession sessionId (ids.foldl (fun acc i => removeSession i acc) s) = false := by
  induction ids generalizing s with
  | nil => simp at h
  | cons i t ih =>
    by_cases he : sessionId = i
    · subst he
      exact hasSession_foldl_remove_false t (hasSession_removeSession_self sessionId s)
    · exact ih (List.mem_of_ne_of_mem he h) (s := removeSession i s)

/-- C8: boundary behaviour of the eviction sweep. For every registry state
with well-formed metadata (no duplicate keys), every sweep instant now and
configured timeout, and every session whose recorded lastActivity gives
inactivity now minus lastActivity: when the inactivity is at most the
timeout the sweep leaves the session untouched (it is never evicted before
the timeout elapses), and when the inactivity strictly exceeds the timeout
that very run of the sweep removes it (eviction within one sweep cycle
after the timeout elapses). -/
theorem cleanup_eviction_boundary (s : ManagerState) (now inactiveTimeoutMs : Int)
    (sessionId : String) (m : SessionMeta)
    (hnd : (s.sessionMetadata.map Prod.fst).Nodup)
    (hm : akLookup sessionId s.sessionMetadata = some m) :
    (now - m.lastActivity ≤ inactiveTimeoutMs →
        hasSession sessionId (cleanupInactiveSessions now inactiveTimeoutMs s) =
          hasSession sessionId s) ∧
    (now - m.lastActivity > inactiveTimeoutMs →
        hasSession sessionId (cleanupInactiveSessions now inactiveTimeoutMs s) = false) := by
  constructor
  · intro hle
    unfold cleanupInactiveSessions
    apply hasSession_foldl_remove_not_mem
    intro hmem
    rcases List.mem_map.mp hmem with ⟨p, hpfilter, hpfst⟩
    rcases List.mem_filter.mp hpfilter with ⟨hpl, hpcond⟩
    have hgt : now - p.2.lastActivity > inactiveTimeoutMs := of_decide_eq_true hpcond
    have hlk : akLookup p.1 s.sessionMetadata = some p.2 := mem_akLookup_of_nodup hnd hpl
    rw [hpfst, hm] at hlk
    have hpm : m = p.2 := by injection hlk
    rw [← hpm] at hgt
    omega
  · intro hgt
    unfold cleanupInactiveSessions
    apply hasSession_foldl_remove_mem
    refine List.mem_map.mpr ⟨(sessionId, m), List.mem_filter.mpr ⟨akLookup_mem hm, ?_⟩, rfl⟩
    exact decide_eq_true hgt

/-- Witness for C8: a concrete one-session registry with lastActivity 0 is
kept by a sweep at instant 100 under timeout 200 and evicted by a sweep at
instant 100 under timeout 50. -/
theorem cleanup_eviction_boundary_witness :
    hasSession ("a")
        (cleanupInactiveSessions 100 200
          { transports := [(("a"), { closeResult := Except.ok () })], sessionServers := [],
            sessionMetadata := [(("a"), { connectedAt := 0, lastActivity := 0 })] }) =
      hasSession ("a")
        { transports := [(("a"), { closeResult := Except.ok () })], sessionServers := [],
          sessionMetadata := [(("a"), { connectedAt := 0, lastActivity := 0 })] } ∧
    hasSession ("a")
        (cleanupInactiveSessions 100 50
          { transports := [(("a"), { closeResult := Except.ok () })], sessionServers := [],
            sessionMetadata := [(("a"), { connectedAt := 0, lastActivity := 0 })] }) = false := by
  constructor
  · exact (cleanup_eviction_boundary
      { transports := [(("a"), { closeResult := Except.ok () })], sessionServers := [],
        sessionMetadata := [(("a"), { connectedAt := 0, lastActivity := 0 })] }
      100 200 ("a") { connectedAt := 0, lastActivity := 0 } (by simp) rfl).1 (by norm_num)
  · exact (cleanup_eviction_boundary
      { transports := [(("a"), { closeResult := Except.ok () })], sessionServers := [],
        sessionMetadata := [(("a"), { connectedAt := 0, lastActivity := 0 })] }
      100 50 ("a") { connectedAt := 0, lastActivity := 0 } (by simp) rfl).2 (by norm_num)

/-- C6 (amended): lifecycle of hasSession. Immediately after a register of
identifier sessionId with a non-null transport (and a truthy identifier),
hasSession is true; it stays true under every operation that is not a
removal of that identifier, an eviction of it by the sweep, or shutdown;
immediately after removal it is false; and it stays false under every
operation that is not a register of the same identifier with a non-null
transport. The last clause is the amendment: the source does not prevent a
later registerSession from reviving the same identifier, so falseness
persists only in the absence of such a re-registration. -/
theorem session_lifecycle (inactiveTimeoutMs : Int) (s : ManagerState) (sessionId : String) :
    (∀ (t : Transport) (server : Option ServerObj) (now : Int), sessionId ≠ "" →
        hasSession sessionId
          (step inactiveTimeoutMs (RegistryOp.register sessionId (some t) server now) s) =
          true) ∧
    (∀ op, hasSession sessionId s = true →
        preservesLiveness inactiveTimeoutMs s sessionId op →
        hasSession sessionId (step inactiveTimeoutMs op s) = true) ∧
    (hasSession sessionId (step inactiveTimeoutMs (RegistryOp.removeOp sessionId) s) = false) ∧
    (∀ op, hasSession sessionId s = false →
        (∀ (t : Transport) (server : Option ServerObj) (now : Int),
            op ≠ RegistryOp.register sessionId (some t) server now) →
        hasSession sessionId (step inactiveTimeoutMs op s) = false) := by
  refine ⟨?_, ?_, ?_, ?_⟩
  · intro t server now hne
    simp [step, registerSession, hne, hasSession, akLookup_akSet_self]
  · intro op htrue hpres
    cases op with
    | register sessionId1 transport server now =>
      by_cases h0 : sessionId1 = ""
      · simpa [step, registerSession, h0] using htrue
      · cases transport with
        | none => simpa [step, registerSession, h0, hasSession] using htrue
        | some t =>
          by_cases he : sessionId = sessionId1
          · subst he
            simp [step, registerSession, h0, hasSession, akLookup_akSet_self]
          · simp [step, registerSession, h0, hasSession, akLookup_akSet_ne he]
            simpa [hasSession] using htrue
    | attachServer sessionId1 server =>
      by_cases h0 : sessionId1 = "" <;> cases server <;>
        simpa [step, setServer, h0, hasSession] using htrue
    | touch sessionId1 now =>
      simpa [step, updateActivity, hasSession] using htrue
    | removeOp sessionId1 =>
      have hne : sessionId ≠ sessionId1 := Ne.symm hpres
      rw [step, hasSession_removeSession_ne hne]
      exact htrue
    | sweep now =>
      rw [step]
      unfold cleanupInactiveSessions
      rw [hasSession_foldl_remove_not_mem ?_ s]
      · exact htrue
      · intro hmem
        rcases List.mem_map.mp hmem with ⟨p, hpfilter, hpfst⟩
        rcases List.mem_filter.mp hpfilter with ⟨hpl, hpcond⟩
        have hgt : now - p.2.lastActivity > inactiveTimeoutMs := of_decide_eq_true hpcond
        have hle := hpres p hpl hpfst
        omega
    | shutdownAll => exact hpres.elim
  · rw [step]
    exact hasSession_removeSession_self sessionId s
  · intro op hfalse hnotreg
    cases op with
    | register sessionId1 transport server now =>
      by_cases h0 : sessionId1 = ""
      · simpa [step, registerSession, h0] using hfalse
      · cases transport with
        | none => simpa [step, registerSession, h0, hasSession] using hfalse
        | some t =>
          have hne : sessionId ≠ sessionId1 := by
            intro hc
            exact hnotreg t server now (by rw [hc])
          simp [step, registerSession, h0, hasSession, akLookup_akSet_ne hne]
          simpa [hasSession] using hfalse
    | attachServer sessionId1 server =>
      by_cases h0 : sessionId1 = "" <;> cases server <;>
        simpa [step, setServer, h0, hasSession] using hfalse
    | touch sessionId1 now =>
      simpa [step, updateActivity, hasSession] using hfalse
    | removeOp sessionId1 =>
      rw [step]
      exact hasSession_removeSession_false hfalse sessionId1
    | sweep now =>
      rw [step]
      unfold cleanupInactiveSessions
      exact hasSession_foldl_remove_false _ hfalse
    | shutdownAll =>
      rw [step]
      unfold shutdown
      exact hasSession_foldl_remove_false _ hfalse

/-- Counterexample for C6 as stated: the claim demands that after removal
hasSession stays false with no resurrection under the same identifier, but
a later register step with the same identifier revives it: in the concrete
trace register, remove, register of identifier sess, hasSession is false
after the removal and true again after the re-registration. -/
theorem session_resurrection_counterexample :
    hasSession ("sess")
        (step 1000 (RegistryOp.removeOp ("sess"))
          (step 1000 (RegistryOp.register ("sess") (some tOk) none 0) emptyState)) = false ∧
    hasSession ("sess")
        (step 1000 (RegistryOp.register ("sess") (some tOk) none 5)
          (step 1000 (RegistryOp.removeOp ("sess"))
            (step 1000 (RegistryOp.register ("sess") (some tOk) none 0) emptyState))) =
      true := by
  constructor <;> rfl

/-- Witness for C6: the amended lifecycle theorem applied to a concrete
trace - a fresh registration is live, stays live under a touch, and is
dead right after removal and after a further touch. -/
theorem session_lifecycle_witness :
    hasSession ("sess")
        (step 1000 (RegistryOp.touch ("sess") 7)
          (step 1000 (RegistryOp.register ("sess") (some tOk) none 0) emptyState)) = true ∧
    hasSession ("sess")
        (step 1000 (RegistryOp.removeOp ("sess"))
          (step 1000 (RegistryOp.register ("sess") (some tOk) none 0) emptyState)) = false := by
  have h1 := (session_lifecycle 1000 emptyState ("sess")).1 tOk none 0 (by decide)
  have h2 := (session_lifecycle 1000
      (step 1000 (RegistryOp.register ("sess") (some tOk) none 0) emptyState) ("sess")).2.1
    (RegistryOp.touch ("sess") 7) h1 (by simp [preservesLiveness])
  have h3 := (session_lifecycle 1000
      (step 1000 (RegistryOp.register ("sess") (some tOk) none 0) emptyState) ("sess")).2.2.1
  exact ⟨h2, h3⟩

theorem countP_and_not {α : Type} (p q : α → Bool) (l : List α) :
    l.countP (fun a => p a && q a) + l.countP (fun a => p a && !(q a)) = l.countP p := by
  induction l with
  | nil => rfl
  | cons a t ih =>
    cases hp : p a <;> cases hq : q a <;>
      simp [List.countP_cons, hp, hq] <;> omega

theorem length_mkSubsKind (dataOk : IndConfig → Bool) (mkName : IndConfig → String)
    (cs : List IndConfig) :
    (mkSubsKind dataOk mkName cs).length = cs.countP (fun c => c.enabled && dataOk c) := by
  simp [mkSubsKind, List.countP_eq_length_filter]

theorem length_submissions (high low close : List ℚ) (ind : IndicatorsSpec) :
    (submissions high low close ind).length + skippedCount high close ind =
      enabledCount ind := by
  have h1 := countP_and_not (fun c : IndConfig => c.enabled) (rsiDataOk close)
    (normalizeConfig ind.rsi)
  have h2 := countP_and_not (fun c : IndConfig => c.enabled) (emaDataOk close)
    (normalizeConfig ind.ema)
  have h3 := countP_and_not (fun c : IndConfig => c.enabled) (smaDataOk close)
    (normalizeConfig ind.sma)
  have h4 := countP_and_not (fun c : IndConfig => c.enabled) (macdDataOk close)
    (normalizeConfig ind.macd)
  have h5 := countP_and_not (fun c : IndConfig => c.enabled) (bbDataOk close)
    (normalizeConfig ind.bollinger)
  have h6 := countP_and_not (fun c : IndConfig => c.enabled) (stochDataOk high)
    (normalizeConfig ind.stochastic)
  have h7 := countP_and_not (fun c : IndConfig => c.enabled) (atrDataOk high)
    (normalizeConfig ind.atr)
  simp only [submissions, skippedCount, enabledCount, length_mkSubsKind,
    List.length_append]
  omega

theorem akSet_append_of_not_mem {α : Type} (k : String) (v : α) {l : List (String × α)}
    (h : akLookup k l = none) : akSet k v l = l ++ [(k, v)] := by
  induction l with
  | nil => rfl
  | cons p rest ih =>
    have h1 : ¬ p.1 = k := by
      intro hc
      simp [akLookup, hc] at h
    have h2 : akLookup k rest = none := by
      simpa [akLookup, h1] using h
    simp [akSet, h1, ih h2]

theorem akLookup_append_left_none {α : Type} {k : String} {l1 : List (String × α)}
    (l2 : List (String × α)) (h : akLookup k l1 = none) :
    akLookup k (l1 ++ l2) = akLookup k l2 := by
  induction l1 with
  | nil => rfl
  | cons p rest ih =>
    have h1 : ¬ p.1 = k := by
      intro hc
      simp [akLookup, hc] at h
    have h2 : akLookup k rest = none := by
      simpa [akLookup, h1] using h
    simpa [akLookup, h1] using ih h2

theorem foldl_akSet_fresh {α : Type} (l : List (String × α)) :
    ∀ acc, (∀ p ∈ l, akLookup p.1 acc = none) → (l.map Prod.fst).Nodup →
      l.foldl (fun acc p => akSet p.1 p.2 acc) acc = acc ++ l := by
  induction l with
  | nil =>
    intro acc _ _
    simp
  | cons p t ih =>
    intro acc hnone hnd
    have hp : akLookup p.1 acc = none := hnone p (List.mem_cons_self p t)
    have hset : akSet p.1 p.2 acc = acc ++ [p] := akSet_append_of_not_mem _ _ hp
    have hrest : ∀ q ∈ t, akLookup q.1 (acc ++ [p]) = none := by
      intro q hq
      have hqne : ¬ p.1 = q.1 := by
        intro hc
        exact (List.nodup_cons.mp hnd).1 (hc ▸ List.mem_map_of_mem Prod.fst hq)
      rw [akLookup_append_left_none _ (hnone q (List.mem_cons_of_mem p hq))]
      simp [akLookup, hqne]
    calc (p :: t).foldl (fun acc p => akSet p.1 p.2 acc) acc
        = t.foldl (fun acc p => akSet p.1 p.2 acc) (acc ++ [p]) := by
          rw [List.foldl_cons, hset]
      _ = (acc ++ [p]) ++ t := ih (acc ++ [p]) hrest (List.nodup_cons.mp hnd).2
      _ = acc ++ p :: t := by simp

theorem mergeEntries_eq_self {δ : Type} (l : List (String × ItemPayload δ))
    (h : (l.map Prod.fst).Nodup) : mergeEntries l = l := by
  simpa [mergeEntries] using foldl_akSet_fresh l [] (fun p _ => rfl) h

theorem enum_map_name_fst {δ : Type} (subs : List Submission)
    (settle : Nat → ItemPayload δ) :
    ((subs.enum.map (fun p => (p.2.name, settle p.1))).map Prod.fst) =
      subs.map (fun sub => sub.name) := by
  rw [List.map_map]
  have h : (Prod.fst ∘ fun p : Nat × Submission => (p.2.name, settle p.1)) =
      (fun sub : Submission => sub.name) ∘ Prod.snd := rfl
  rw [h, ← List.map_map, List.enum_map_snd]

/-- C3: every batch request that is missing one of the high, low or close
series, or whose three series do not all share one length, or whose length
is below two, makes calculateAllHandler return a single structured error
envelope - the isError flag is set and the envelope carries no indicator
entries. The handler is a total function of its arguments, so no exception
escapes past it to the transport. -/
theorem calcAll_validation_error {δ : Type} (o : OHLCV) (ind : IndicatorsSpec)
    (settle : Nat → ItemPayload δ) (globalTimedOut : Bool)
    (hbad : o.high = none ∨ o.low = none ∨ o.close = none ∨
      ∃ hi lo cl, o.high = some hi ∧ o.low = some lo ∧ o.close = some cl ∧
        (hi.length ≠ lo.length ∨ hi.length ≠ cl.length ∨ hi.length < 2)) :
    ∃ msg, calculateAllHandler o ind settle globalTimedOut = CalcEnvelope.errorBody msg ∧
      isErrorSet (calculateAllHandler o ind settle globalTimedOut) = true ∧
      envelopeEntries (calculateAllHandler o ind settle globalTimedOut) = [] := by
  suffices hval : ∃ msg, validateOHLCV o = Except.error msg by
    rcases hval with ⟨msg, hmsg⟩
    refine ⟨msg, ?_, ?_, ?_⟩ <;>
      simp [calculateAllHandler, hmsg, isErrorSet, envelopeEntries]
  obtain ⟨oh, ol, oc⟩ := o
  cases oh with
  | none => exact ⟨_, rfl⟩
  | some hi =>
    cases ol with
    | none => exact ⟨_, rfl⟩
    | some lo =>
      cases oc with
      | none => exact ⟨_, rfl⟩
      | some cl =>
        simp only [Option.some.injEq, reduceCtorEq, false_or] at hbad
        rcases hbad with ⟨hi1, lo1, cl1, hh, hl, hc, hcond⟩
        subst hh
        subst hl
        subst hc
        by_cases h1 : hi.length ≠ lo.length ∨ hi.length ≠ cl.length
        · exact ⟨("OHLCV arrays must have the same length"), by simp [validateOHLCV, h1]⟩
        · have h2 : hi.length < 2 := by tauto
          exact ⟨("Need at least 2 data points"), by simp [validateOHLCV, h1, h2]⟩

/-- Witness for C3: a concrete batch with series lengths 3, 2 and 3 yields
the structured validation-error envelope with the isError flag set and no
indicator entries. -/
theorem calcAll_validation_error_witness :
    isErrorSet (calculateAllHandler
        { high := some [1, 2, 3], low := some [1, 2], close := some [1, 2, 3] }
        rsiOnly settleOk false) = true ∧
    envelopeEntries (calculateAllHandler
        { high := some [1, 2, 3], low := some [1, 2], close := some [1, 2, 3] }
        rsiOnly settleOk false) = [] := by
  obtain ⟨msg, _h1, h2, h3⟩ := calcAll_validation_error
    { high := some [1, 2, 3], low := some [1, 2], close := some [1, 2, 3] }
    rsiOnly settleOk false
    (Or.inr (Or.inr (Or.inr ⟨[1, 2, 3], [1, 2], [1, 2, 3], rfl, rfl, rfl,
      Or.inl (by decide)⟩)))
  exact ⟨h2, h3⟩

/-- C2 (amended): when the global batch timeout elapses first on a batch
that passed validation, calculateAllHandler still returns a value - the
structured error envelope built from the timeout rejection, with the
isError flag set - but that envelope carries no indicator entries at all:
the control flow reaches the catch block, which never consults the merged
partial results, so every already-settled item is dropped rather than
returned. -/
theorem calcAll_global_timeout_truncation {δ : Type} (o : OHLCV) (ind : IndicatorsSpec)
    (settle : Nat → ItemPayload δ) (hi lo cl : List ℚ)
    (hh : o.high = some hi) (hl : o.low = some lo) (hc : o.close = some cl)
    (hlen1 : hi.length = lo.length) (hlen2 : hi.length = cl.length)
    (hlen : 2 ≤ hi.length) :
    calculateAllHandler o ind settle true = CalcEnvelope.errorBody globalTimeoutMessage ∧
      isErrorSet (calculateAllHandler o ind settle true) = true ∧
      envelopeEntries (calculateAllHandler o ind settle true) = [] := by
  have hval : validateOHLCV o = Except.ok (hi, lo, cl) := by
    simp only [validateOHLCV, hh, hl, hc]
    rw [if_neg (by omega), if_neg (by omega)]
  refine ⟨?_, ?_, ?_⟩ <;>
    simp [calculateAllHandler, hval, isErrorSet, envelopeEntries]

/-- Witness for C2: the amended truncation theorem at a concrete valid
batch of fourteen points with one enabled RSI configuration. -/
theorem calcAll_global_timeout_truncation_witness :
    calculateAllHandler ohlcv14 rsiOnly settleOk true =
      CalcEnvelope.errorBody globalTimeoutMessage ∧
    envelopeEntries (calculateAllHandler ohlcv14 rsiOnly settleOk true) = [] := by
  have h := calcAll_global_timeout_truncation ohlcv14 rsiOnly settleOk
    (List.replicate 14 1) (List.replicate 14 1) (List.replicate 14 1)
    rfl rfl rfl rfl rfl (by decide)
  exact ⟨h.1, h.2.2⟩

/-- Counterexample for C2 as stated: on the concrete fourteen-point batch
with one enabled RSI configuration, the submitted item settles (the run
without the global timeout returns its entry under the key rsi_14), yet
the run in which the global timeout elapses returns the error envelope
with no per-item entries - the settled item is dropped, contradicting the
claim that every settled entry is contained in the returned mapping. -/
theorem calcAll_timeout_drops_settled_counterexample :
    calculateAllHandler ohlcv14 rsiOnly settleOk false =
      CalcEnvelope.okBody 14 [(("rsi_14"), ItemPayload.data ())] ∧
    calculateAllHandler ohlcv14 rsiOnly settleOk true =
      CalcEnvelope.errorBody globalTimeoutMessage ∧
    envelopeEntries (calculateAllHandler ohlcv14 rsiOnly settleOk true) = [] := by
  refine ⟨?_, rfl, rfl⟩
  rfl

/-- C4 (amended): on a validated batch that does not hit the global
timeout, the returned mapping carries one entry per submitted calculation
in submission order, keyed by the explicit name when provided and by the
deterministic kind-and-parameter default otherwise, each entry a success
or an error payload; and provided the submitted names are pairwise
distinct, the number of entries plus the number of skipped
insufficient-data configurations equals the number of enabled
configurations - exactly N minus K entries. The distinctness hypothesis is
the amendment: identical repeated parameter sets of one kind share one
default key, on which their entries collide. -/
theorem calcAll_batch_entry_count {δ : Type} (o : OHLCV) (ind : IndicatorsSpec)
    (settle : Nat → ItemPayload δ) (hi lo cl : List ℚ)
    (hh : o.high = some hi) (hl : o.low = some lo) (hc : o.close = some cl)
    (hlen1 : hi.length = lo.length) (hlen2 : hi.length = cl.length)
    (hlen : 2 ≤ hi.length)
    (hnd : ((submissions hi lo cl ind).map (fun sub => sub.name)).Nodup) :
    calculateAllHandler o ind settle false =
      CalcEnvelope.okBody cl.length
        ((submissions hi lo cl ind).enum.map (fun p => (p.2.name, settle p.1))) ∧
    (envelopeEntries (calculateAllHandler o ind settle false)).map Prod.fst =
      (submissions hi lo cl ind).map (fun sub => sub.name) ∧
    (envelopeEntries (calculateAllHandler o ind settle false)).length +
        skippedCount hi cl ind = enabledCount ind := by
  have hval : validateOHLCV o = Except.ok (hi, lo, cl) := by
    simp only [validateOHLCV, hh, hl, hc]
    rw [if_neg (by omega), if_neg (by omega)]
  have hmerge : mergeEntries ((submissions hi lo cl ind).enum.map
      (fun p => (p.2.name, settle p.1))) =
      (submissions hi lo cl ind).enum.map (fun p => (p.2.name, settle p.1)) := by
    apply mergeEntries_eq_self
    rw [enum_map_name_fst]
    exact hnd
  have hhandler : calculateAllHandler o ind settle false =
      CalcEnvelope.okBody cl.length
        ((submissions hi lo cl ind).enum.map (fun p => (p.2.name, settle p.1))) := by
    simp [calculateAllHandler, hval, hmerge]
  refine ⟨hhandler, ?_, ?_⟩
  · rw [hhandler]
    exact enum_map_name_fst _ _
  · rw [hhandler]
    simp only [envelopeEntries, List.length_map, List.enum_length]
    exact length_submissions hi lo cl ind

/-- Witness for C4: the amended batch theorem at the concrete
fourteen-point dataset with one enabled default RSI configuration, whose
single submission is keyed rsi_14. -/
theorem calcAll_batch_entry_count_witness :
    calculateAllHandler ohlcv14 rsiOnly settleOk false =
      CalcEnvelope.okBody 14 [(("rsi_14"), ItemPayload.data ())] ∧
    (envelopeEntries (calculateAllHandler ohlcv14 rsiOnly settleOk false)).length +
        skippedCount (List.replicate 14 1) (List.replicate 14 1) rsiOnly =
      enabledCount rsiOnly := by
  have h := calcAll_batch_entry_count ohlcv14 rsiOnly settleOk
    (List.replicate 14 1) (List.replicate 14 1) (List.replicate 14 1)
    rfl rfl rfl rfl rfl (by decide) (by decide)
  exact ⟨h.1.trans (by rfl), h.2.2⟩

/-- Counterexample for C4 as stated: submitting the same default RSI
configuration twice (N equal to two enabled configurations, K equal to
zero skipped) produces two submissions that share the default key rsi_14,
so the returned mapping holds a single entry, not N minus K entries - the
repeated parameter set collides on one key and one result is silently
overwritten. -/
theorem calcAll_name_collision_counterexample :
    (submissions (List.replicate 14 1) (List.replicate 14 1) (List.replicate 14 1)
        rsiTwice).length = 2 ∧
    enabledCount rsiTwice - skippedCount (List.replicate 14 1) (List.replicate 14 1)
        rsiTwice = 2 ∧
    (envelopeEntries (calculateAllHandler ohlcv14 rsiTwice settleOk false)).length = 1 := by
  refine ⟨rfl, rfl, rfl⟩

/-- C9 counterexample: the claim calls the per-call default timeout of the
Computation Gateway approximately one second, read here as lying between
500 and 1500 milliseconds; the default of runIndicatorWithTimeout is 3000
milliseconds, three times the claimed value, outside that band. -/
theorem percall_timeout_not_one_second :
    runIndicatorDefaultTimeoutMs = 3000 ∧
      ¬(500 ≤ runIndicatorDefaultTimeoutMs ∧ runIndicatorDefaultTimeoutMs ≤ 1500) := by
  exact ⟨rfl, by decide⟩

/-- Auxiliary: every submission of one kind runs under the default
per-call timeout, since every call site omits the timeout argument. -/
theorem timeoutMs_mkSubsKind {dataOk : IndConfig → Bool} {mkName : IndConfig → String}
    {cs : List IndConfig} {sub : Submission} (h : sub ∈ mkSubsKind dataOk mkName cs) :
    sub.timeoutMs = runIndicatorDefaultTimeoutMs := by
  obtain ⟨c, _hc, rfl⟩ := List.mem_map.mp h
  rfl

/-- C9 (amended): the per-call timeout of the Computation Gateway defaults
to 3000 milliseconds (3 seconds, not approximately 1 second; the generic
withTimeout wrapper defaults to 5000 milliseconds), every calculation
submitted by the Aggregate Orchestrator runs under that per-call default,
and the single global batch timeout of 15000 milliseconds is strictly
larger than the per-call timeout of every submitted computation. -/
theorem timeout_hierarchy (hi lo cl : List ℚ) (ind : IndicatorsSpec) (sub : Submission)
    (hmem : sub ∈ submissions hi lo cl ind) :
    runIndicatorDefaultTimeoutMs = 3000 ∧ withTimeoutDefaultMs = 5000 ∧
      globalBatchTimeoutMs = 15000 ∧ sub.timeoutMs = runIndicatorDefaultTimeoutMs ∧
      sub.timeoutMs < globalBatchTimeoutMs := by
  have ht : sub.timeoutMs = runIndicatorDefaultTimeoutMs := by
    simp only [submissions, List.mem_append] at hmem
    rcases hmem with ((((((h | h) | h) | h) | h) | h) | h) <;>
      exact timeoutMs_mkSubsKind h
  refine ⟨rfl, rfl, rfl, ht, ?_⟩
  rw [ht]
  decide

/-- Witness for C9: the timeout hierarchy at the concrete single-RSI
batch, whose one submission is keyed rsi_14 with the 3000 millisecond
per-call default. -/
theorem timeout_hierarchy_witness :
    runIndicatorDefaultTimeoutMs = 3000 ∧ withTimeoutDefaultMs = 5000 ∧
      globalBatchTimeoutMs = 15000 ∧
      ({ name := ("rsi_14"), timeoutMs := 3000 } : Submission).timeoutMs =
        runIndicatorDefaultTimeoutMs ∧
      ({ name := ("rsi_14"), timeoutMs := 3000 } : Submission).timeoutMs <
        globalBatchTimeoutMs :=
  timeout_hierarchy (List.replicate 14 1) (List.replicate 14 1) (List.replicate 14 1)
    rsiOnly { name := ("rsi_14"), timeoutMs := 3000 } (by decide)

/-- C5: the tool dispatch boundary. For every handler table, tool name and
argument bag: a name with no registered handler yields the structured
unknown-tool result with the isError flag set (a value, not a
protocol-level fault); an exception thrown by the invoked handler is
caught at the boundary and converted into the structured error result with
isError set; and a handler result is propagated verbatim. dispatchToolCall
is a total function into structured results, so no exception crosses the
boundary and the session and transport stay usable. -/
theorem dispatch_structured {α : Type}
    (handlers : List (String × (α → Except String ToolResult)))
    (toolName : String) (args : α) :
    (akLookup toolName handlers = none →
        dispatchToolCall handlers toolName args = unknownToolResult toolName ∧
          (dispatchToolCall handlers toolName args).isError = true) ∧
    (∀ (h : α → Except String ToolResult) (e : String),
        akLookup toolName handlers = some h → h args = Except.error e →
        dispatchToolCall handlers toolName args = handlerFaultResult e ∧
          (dispatchToolCall handlers toolName args).isError = true) ∧
    (∀ (h : α → Except String ToolResult) (r : ToolResult),
        akLookup toolName handlers = some h → h args = Except.ok r →
        dispatchToolCall handlers toolName args = r) := by
  refine ⟨?_, ?_, ?_⟩
  · intro hnone
    simp [dispatchToolCall, hnone, unknownToolResult]
  · intro h e hsome herr
    simp [dispatchToolCall, hsome, herr, handlerFaultResult]
  · intro h r hsome hok
    simp [dispatchToolCall, hsome, hok]

/-- Witness for C5: an unknown name on the empty table yields the
unknown-tool result, a throwing handler yields the converted fault result,
and a succeeding handler has its result propagated verbatim. -/
theorem dispatch_structured_witness :
    dispatchToolCall ([] : List (String × (Unit → Except String ToolResult)))
        ("calculate_rsi") () = unknownToolResult ("calculate_rsi") ∧
    dispatchToolCall [(("boom_tool"), fun _ : Unit => Except.error ("fail"))]
        ("boom_tool") () = handlerFaultResult ("fail") ∧
    dispatchToolCall [(("ok_tool"), fun _ : Unit => Except.ok { content := [] })]
        ("ok_tool") () = { content := [] } := by
  refine ⟨((dispatch_structured ([] : List (String × (Unit → Except String ToolResult)))
    ("calculate_rsi") ()).1 rfl).1, ?_, ?_⟩
  · exact ((dispatch_structured [(("boom_tool"), fun _ : Unit => Except.error ("fail"))]
      ("boom_tool") ()).2.1 _ ("fail") rfl rfl).1
  · exact (dispatch_structured [(("ok_tool"), fun _ : Unit => Except.ok { content := [] })]
      ("ok_tool") ()).2.2 _ { content := [] } rfl rfl

/-- C10: the direct calculate_stochastic handler on arrays of unequal
lengths. It never rejects for the mismatch itself: all three arrays are
truncated to the shortest length; when the truncated length is positive
and reaches kPeriod plus kSmoothPeriod plus dPeriod (any positive length
at the bound suffices, since the bound is at least one whenever any period
is) and the engine call succeeds, the
handler returns the success payload whose dataPoints is the truncated
length and whose warning field describes the adjustment; below that bound
it throws - the insufficient-data error for a positive truncated length,
the empty-arrays error at length zero. -/
theorem stoch_mismatch_truncation {δ : Type}
    (engine : List ℚ → List ℚ → List ℚ → Nat → Nat → Nat → Except String δ)
    (a : StochArgs)
    (hmis : (a.high.length = a.low.length && a.low.length = a.close.length) = false) :
    (∀ body : δ,
        0 < min (min a.high.length a.low.length) a.close.length →
        a.kPeriod.getD 14 + a.kSmoothPeriod.getD 3 + a.dPeriod.getD 3 ≤
            min (min a.high.length a.low.length) a.close.length →
        engine (a.high.take (min (min a.high.length a.low.length) a.close.length))
            (a.low.take (min (min a.high.length a.low.length) a.close.length))
            (a.close.take (min (min a.high.length a.low.length) a.close.length))
            (a.kPeriod.getD 14) (a.kSmoothPeriod.getD 3) (a.dPeriod.getD 3) =
          Except.ok body →
        stochasticHandler engine a =
          StochOutcome.okBody (min (min a.high.length a.low.length) a.close.length)
            (some (stochWarningMessage a.high.length a.low.length a.close.length
              (min (min a.high.length a.low.length) a.close.length))) body) ∧
    (min (min a.high.length a.low.length) a.close.length = 0 →
        stochasticHandler engine a =
          StochOutcome.thrown ("Price arrays must not be empty")) ∧
    (0 < min (min a.high.length a.low.length) a.close.length →
        min (min a.high.length a.low.length) a.close.length <
            a.kPeriod.getD 14 + a.kSmoothPeriod.getD 3 + a.dPeriod.getD 3 →
        stochasticHandler engine a =
          StochOutcome.thrown ("Insufficient data: need at least " ++
            toString (a.kPeriod.getD 14 + a.kSmoothPeriod.getD 3 + a.dPeriod.getD 3) ++
            " data points for Stochastic calculation")) := by
  have htake : (a.high.take (min (min a.high.length a.low.length) a.close.length)).length =
      min (min a.high.length a.low.length) a.close.length := by
    rw [List.length_take]
    omega
  refine ⟨?_, ?_, ?_⟩
  · intro body hposmin hbound hengine
    simp only [stochasticHandler, hmis, Bool.not_false, eq_self_iff_true, if_true, htake]
    rw [if_neg (by omega), if_neg (by omega), hengine]
  · intro hzero
    simp only [stochasticHandler, hmis, Bool.not_false, eq_self_iff_true, if_true, htake]
    rw [if_pos hzero]
  · intro hpos hlt
    simp only [stochasticHandler, hmis, Bool.not_false, eq_self_iff_true, if_true, htake]
    rw [if_neg (by omega), if_pos hlt]

/-- Witness for C10: on mismatched lengths 21, 20 and 22 and the default
periods, the truncated length 20 meets the bound and the handler succeeds
with the adjustment warning; on mismatched lengths 5, 4 and 6 the
truncated length 4 is below the bound 20 and the handler throws the
insufficient-data error. -/
theorem stoch_mismatch_truncation_witness :
    stochasticHandler engineUnitOk stochArgsMis =
      StochOutcome.okBody 20 (some (stochWarningMessage 21 20 22 20)) () ∧
    stochasticHandler engineUnitOk stochArgsShort =
      StochOutcome.thrown ("Insufficient data: need at least 20 data points for Stochastic calculation") := by
  constructor
  · have h := (stoch_mismatch_truncation engineUnitOk stochArgsMis (by decide)).1 ()
      (by decide) (by decide) rfl
    exact h.trans (by rfl)
  · have h := (stoch_mismatch_truncation engineUnitOk stochArgsShort (by decide)).2.2
      (by decide) (by decide)
    exact h.trans (by rfl)

end MCPIndicators
